import Mathlib

/-!
Verification of the background loader subsystem of the datalens repository:
loader_context.py, loader_worker.py and loader_runner.py under
src/datalens/infra/background/.

Modelling choices:
* A Qt signal emission is modelled as appending one event to the list of
  events delivered to the owning thread, in emission order.  This matches
  the single-producer FIFO delivery of queued signal connections.
* Python float progress values are never computed with by this subsystem,
  only passed through unchanged, so they are modelled by exact rationals.
* Python exception values are carried opaquely; only their identity matters.
* A task body interacts with the subsystem only through its LoaderContext,
  so a task is modelled as the finite sequence of context calls it makes,
  followed by a normal return or a raise.
-/

namespace Datalens

/-- Python exception values, carried opaquely through the subsystem. -/
inductive PyError where
  | valueError (msg : String)
  | otherError (kind : String) (msg : String)
deriving DecidableEq, Repr

/-- Events crossing the thread boundary: the four Qt signals declared by
LoaderWorker (loader_worker.py lines 58 to 61): message, progress,
finished, failed. -/
inductive Event (α : Type) where
  | logMessage (text : String)
  | progressUpdate (value : Rat)
  | finished (result : α)
  | failed (error : PyError)
deriving DecidableEq, Repr

/-- The finished variant, called Completed in the specification. -/
def Event.isCompleted {α : Type} : Event α → Bool
  | .finished _ => true
  | _ => false

/-- The failed variant. -/
def Event.isFailed {α : Type} : Event α → Bool
  | .failed _ => true
  | _ => false

/-- LoaderContext (loader_context.py lines 41 to 47): holds the two sinks
given to the constructor.  send_message is a required argument; the
send_progress argument defaults to None, hence the Option.  A sink is a
state transformer on the observer state sigma. -/
structure LoaderContext (σ : Type) where
  send_message : String → σ → σ
  send_progress : Option (Rat → σ → σ)

/-- LoaderContext.log (loader_context.py line 65): unconditionally invokes
the message sink. -/
def LoaderContext.log {σ : Type} (ctx : LoaderContext σ) (text : String) (s : σ) : σ :=
  ctx.send_message text s

/-- LoaderContext.set_progress (loader_context.py lines 85 to 86): invokes
the progress sink when one is configured, otherwise a no-op. -/
def LoaderContext.set_progress {σ : Type} (ctx : LoaderContext σ) (value : Rat) (s : σ) : σ :=
  match ctx.send_progress with
  | none => s
  | some f => f value s

/-- A task body, modelled as the sequence of context calls it makes and
how it ends: a normal return carrying a result, or a raise carrying an
exception. -/
inductive TaskProg (α : Type) where
  | ret (result : α)
  | raiseExc (error : PyError)
  | log (text : String) (rest : TaskProg α)
  | set_progress (value : Rat) (rest : TaskProg α)

/-- Executing a task body against a given context: each log or
set_progress call of the body invokes the corresponding LoaderContext
method there and then, threading the observer state; the end of the body
yields Except.ok on return and Except.error on raise. -/
def TaskProg.run {α σ : Type} (ctx : LoaderContext σ) :
    TaskProg α → σ → σ × Except PyError α
  | .ret r, s => (s, Except.ok r)
  | .raiseExc e, s => (s, Except.error e)
  | .log t k, s => TaskProg.run ctx k (ctx.log t s)
  | .set_progress v k, s => TaskProg.run ctx k (ctx.set_progress v s)

/-- The context calls a task body makes before returning or raising, in
order. -/
inductive CtxCall where
  | log (text : String)
  | set_progress (value : Rat)

/-- The call sequence of a task body. -/
def TaskProg.calls {α : Type} : TaskProg α → List CtxCall
  | .ret _ => []
  | .raiseExc _ => []
  | .log t k => CtxCall.log t :: k.calls
  | .set_progress v k => CtxCall.set_progress v :: k.calls

/-- How a task body ends: normal return of a result, or a raise. -/
def TaskProg.outcome {α : Type} : TaskProg α → Except PyError α
  | .ret r => Except.ok r
  | .raiseExc _e => Except.error _e
  | .log _ k => k.outcome
  | .set_progress _ k => k.outcome

/-- The event each context call becomes when routed through the worker
sinks. -/
def CtxCall.event (α : Type) : CtxCall → Event α
  | .log t => Event.logMessage t
  | .set_progress v => Event.progressUpdate v

/-- The terminal event for a given task end: finished for a normal
return, failed for a raise. -/
def terminalEvent {α : Type} : Except PyError α → Event α
  | .ok r => Event.finished r
  | .error e => Event.failed e

namespace LoaderWorker

/-- The context built by LoaderWorker at the start of its task execution
(loader_worker.py lines 111 to 114): send_message emits the message
signal, send_progress emits the progress signal.  Both sinks are wired;
an emission appends one event to the delivered trace. -/
def workerCtx (α : Type) : LoaderContext (List (Event α)) :=
  { send_message := fun msg s => s ++ [Event.logMessage msg]
    send_progress := some (fun val s => s ++ [Event.progressUpdate val]) }

/-- The task execution path of the worker (loader_worker.py lines 103 to
123): build the context, run the task; on a raise the exception is
caught at this boundary and the failed signal is emitted, then the
method returns; on a normal return the finished signal is emitted.
The printed traceback is a console side effect, not an event.  The
result is the full trace of events delivered for the invocation. -/
def run_task {α : Type} (task : TaskProg α) : List (Event α) :=
  match task.run (workerCtx α) [] with
  | (s, Except.error exc) => s ++ [Event.failed exc]
  | (s, Except.ok result) => s ++ [Event.finished result]

end LoaderWorker

namespace LoaderWorker

/-- The mutable state of a LoaderWorker.  The task and thread fields are
the attributes set by the constructor (loader_worker.py lines 71 to 73);
unitsSpawned is instrumentation counting the QThread objects the worker
has created and started, so that claims about execution units can be
stated. -/
structure WorkerState (α : Type) where
  task : TaskProg α
  thread : Option Nat
  unitsSpawned : Nat

/-- LoaderWorker construction (loader_worker.py lines 63 to 73): stores
the task; the thread attribute starts as None. -/
def init {α : Type} (task : TaskProg α) : WorkerState α :=
  { task := task, thread := none, unitsSpawned := 0 }

/-- LoaderWorker.start (loader_worker.py lines 79 to 97).  The method
body performs no state check: it unconditionally constructs a fresh
QThread, assigns it to the thread attribute, moves the worker to it,
wires the cleanup connections, and starts it.  Modelled with an Except
return type so that the absence of any raised exception is visible: the
body contains no raise statement and no guard, so the result is always
Except.ok, with one more execution unit spawned and the thread attribute
pointing at the new thread. -/
def start {α : Type} (w : WorkerState α) : Except PyError (WorkerState α) :=
  Except.ok { w with thread := some w.unitsSpawned
                     unitsSpawned := w.unitsSpawned + 1 }

end LoaderWorker

/-- The actions run_with_loader causes on the owning thread, in order:
dialog display, the two dialog-bound deliveries, and the steps of the
two terminal handlers (loader_runner.py lines 68 to 112). -/
inductive MainAction (α : Type) where
  | showDialog
  | appendMessage (text : String)
  | setDialogProgress (value : Rat)
  | closeDialog
  | callOnResult (result : α)
  | callOnError (error : PyError)
  | deleteWorker
deriving DecidableEq, Repr

/-- A caller callback invocation. -/
def MainAction.isCallback {α : Type} : MainAction α → Bool
  | .callOnResult _ => true
  | .callOnError _ => true
  | _ => false

/-- A delivery of a log message or progress value to the dialog. -/
def MainAction.isDelivery {α : Type} : MainAction α → Bool
  | .appendMessage _ => true
  | .setDialogProgress _ => true
  | _ => false

/-- The success handler _handle_result (loader_runner.py lines 87 to 91):
close the dialog, invoke on_result when one was supplied, release the
worker.  The Bool argument records whether the caller supplied the
optional on_result callback. -/
def handleResult {α : Type} (hasOnResult : Bool) (r : α) : List (MainAction α) :=
  [MainAction.closeDialog]
    ++ (if hasOnResult then [MainAction.callOnResult r] else [])
    ++ [MainAction.deleteWorker]

/-- The failure handler _handle_error (loader_runner.py lines 99 to 103):
close the dialog, invoke on_error when one was supplied, release the
worker. -/
def handleError {α : Type} (hasOnError : Bool) (e : PyError) : List (MainAction α) :=
  [MainAction.closeDialog]
    ++ (if hasOnError then [MainAction.callOnError e] else [])
    ++ [MainAction.deleteWorker]

/-- The signal connections made by run_with_loader (loader_runner.py
lines 75, 79, 93, 105): message goes to dialog.append_message, progress
to dialog.set_progress (the dialog does define set_progress, so the
guarded connect succeeds), finished to _handle_result and failed to
_handle_error.  Dispatching one delivered event yields the main-thread
actions of its connected handler. -/
def dispatchEvent {α : Type} (hasOnResult hasOnError : Bool) :
    Event α → List (MainAction α)
  | .logMessage t => [MainAction.appendMessage t]
  | .progressUpdate v => [MainAction.setDialogProgress v]
  | .finished r => handleResult hasOnResult r
  | .failed e => handleError hasOnError e

/-- run_with_loader (loader_runner.py lines 30 to 112), seen from the
owning thread: the dialog is shown when run_with_loader returns, and the
queued worker events are then dispatched in delivery order, each through
its connected handler.  The callbacks are recorded by whether they were
supplied. -/
def run_with_loader {α : Type} (hasOnResult hasOnError : Bool)
    (task : TaskProg α) : List (MainAction α) :=
  MainAction.showDialog
    :: (LoaderWorker.run_task task).flatMap (dispatchEvent hasOnResult hasOnError)

/-- The main-thread actions produced by the terminal event of a task with
the given outcome. -/
def terminalActions {α : Type} (hasOnResult hasOnError : Bool) :
    Except PyError α → List (MainAction α)
  | .ok r => handleResult hasOnResult r
  | .error e => handleError hasOnError e

/-- The main-thread action a non-terminal context call turns into. -/
def stepAction {α : Type} : CtxCall → MainAction α
  | .log t => MainAction.appendMessage t
  | .set_progress v => MainAction.setDialogProgress v

/-- The teardown shape of a main-thread action, used to compare the two
terminal handlers step by step with the callback payloads abstracted
away. -/
inductive TeardownStep where
  | closeDialog
  | invokeCallback
  | deleteWorker
  | otherStep
deriving DecidableEq, Repr

/-- Abstraction of a main-thread action to its teardown shape. -/
def MainAction.teardownShape {α : Type} : MainAction α → TeardownStep
  | .closeDialog => TeardownStep.closeDialog
  | .callOnResult _ => TeardownStep.invokeCallback
  | .callOnError _ => TeardownStep.invokeCallback
  | .deleteWorker => TeardownStep.deleteWorker
  | _ => TeardownStep.otherStep

/-- Concrete scenario A of the specification: the task logs step1 and
step2 and returns 42. -/
def scenarioA : TaskProg Nat :=
  TaskProg.log "step1" (TaskProg.log "step2" (TaskProg.ret 42))

/-- Concrete scenario B of the specification: the task reports progress
one half and then raises ValueError with message bad input. -/
def scenarioB : TaskProg Nat :=
  TaskProg.set_progress (1 / 2)
    (TaskProg.raiseExc (PyError.valueError "bad input"))

/-- A worker on which start was called twice in a row, beginning from a
freshly constructed worker for a trivial task. -/
def startedTwice : Except PyError (LoaderWorker.WorkerState Nat) :=
  (LoaderWorker.start (LoaderWorker.init (TaskProg.ret 0))).bind LoaderWorker.start

/-- A worker state as it is after one start call: the thread attribute is
set and one execution unit has been spawned. -/
def startedOnceWorker : LoaderWorker.WorkerState Nat :=
  { task := TaskProg.ret 0, thread := some 0, unitsSpawned := 1 }

/-- Running a task body against the worker context from any starting
trace appends exactly one event per context call, in call order, and
ends with the task outcome. -/
theorem TaskProg.run_workerCtx {α : Type} (task : TaskProg α)
    (s : List (Event α)) :
    task.run (LoaderWorker.workerCtx α) s
      = (s ++ task.calls.map (CtxCall.event α), task.outcome) := by
  induction task generalizing s with
  | ret r => simp [TaskProg.run, TaskProg.calls, TaskProg.outcome]
  | raiseExc e => simp [TaskProg.run, TaskProg.calls, TaskProg.outcome]
  | log t k ih =>
      simp only [TaskProg.run, TaskProg.calls, CtxCall.event, List.map_cons, ih]
      simp [LoaderContext.log, LoaderWorker.workerCtx, List.append_assoc,
        TaskProg.outcome]
  | set_progress v k ih =>
      simp only [TaskProg.run, TaskProg.calls, CtxCall.event, List.map_cons, ih]
      simp [LoaderContext.set_progress, LoaderWorker.workerCtx, List.append_assoc,
        TaskProg.outcome]

/-- The delivered trace of an invocation: one event per context call, in
call order, then the terminal event, and nothing else. -/
theorem LoaderWorker.run_task_trace {α : Type} (task : TaskProg α) :
    LoaderWorker.run_task task
      = task.calls.map (CtxCall.event α) ++ [terminalEvent task.outcome] := by
  unfold LoaderWorker.run_task
  rw [task.run_workerCtx]
  cases h : task.outcome with
  | ok r => simp [terminalEvent]
  | error e => simp [terminalEvent]

/-- Events produced by context calls are never Completed events. -/
theorem calls_countP_completed {α : Type} (cs : List CtxCall) :
    (cs.map (CtxCall.event α)).countP Event.isCompleted = 0 := by
  induction cs with
  | nil => rfl
  | cons c cs ih =>
      cases c <;> simp [List.countP_cons, CtxCall.event, Event.isCompleted, ih]

/-- Events produced by context calls are never Failed events. -/
theorem calls_countP_failed {α : Type} (cs : List CtxCall) :
    (cs.map (CtxCall.event α)).countP Event.isFailed = 0 := by
  induction cs with
  | nil => rfl
  | cons c cs ih =>
      cases c <;> simp [List.countP_cons, CtxCall.event, Event.isFailed, ih]

/-- C1: for every task that returns normally with value r, the worker
emits exactly one Completed terminal event, that event carries r, and it
is the last event of the invocation: no event of any kind follows it in
the delivered trace. -/
theorem C1_normal_return_single_completed {α : Type} (task : TaskProg α)
    (r : α) (h : task.outcome = Except.ok r) :
    (LoaderWorker.run_task task).countP Event.isCompleted = 1
    ∧ (LoaderWorker.run_task task).getLast? = some (Event.finished r) := by
  rw [LoaderWorker.run_task_trace, h]
  refine ⟨?_, ?_⟩
  · rw [List.countP_append, calls_countP_completed]
    rfl
  · simp [terminalEvent]

/-- Witness for C1 at scenario A: the task logs step1 and step2 and
returns 42. -/
theorem C1_witness :
    scenarioA.outcome = Except.ok 42
    ∧ ((LoaderWorker.run_task scenarioA).countP Event.isCompleted = 1
       ∧ (LoaderWorker.run_task scenarioA).getLast? = some (Event.finished 42)) :=
  ⟨rfl, C1_normal_return_single_completed scenarioA 42 rfl⟩

/-- C2: for every task that raises exception e, the worker catches e at
its boundary (run_task is a total function on raising tasks: the except
branch turns the raise into an event), emits exactly one Failed terminal
event carrying e as the last event, and emits no Completed event in the
same invocation. -/
theorem C2_raise_single_failed {α : Type} (task : TaskProg α)
    (e : PyError) (h : task.outcome = Except.error e) :
    (LoaderWorker.run_task task).countP Event.isFailed = 1
    ∧ (LoaderWorker.run_task task).getLast? = some (Event.failed e)
    ∧ (LoaderWorker.run_task task).countP Event.isCompleted = 0 := by
  rw [LoaderWorker.run_task_trace, h]
  refine ⟨?_, ?_, ?_⟩
  · rw [List.countP_append, calls_countP_failed]
    rfl
  · simp [terminalEvent]
  · rw [List.countP_append, calls_countP_completed]
    rfl

/-- Witness for C2 at scenario B: the task reports progress one half and
raises ValueError with message bad input. -/
theorem C2_witness :
    scenarioB.outcome = Except.error (PyError.valueError "bad input")
    ∧ ((LoaderWorker.run_task scenarioB).countP Event.isFailed = 1
       ∧ (LoaderWorker.run_task scenarioB).getLast?
           = some (Event.failed (PyError.valueError "bad input"))
       ∧ (LoaderWorker.run_task scenarioB).countP Event.isCompleted = 0) :=
  ⟨rfl, C2_raise_single_failed scenarioB (PyError.valueError "bad input") rfl⟩

/-- C3: for any sequence of log and set_progress calls made by a task
before it returns or raises, the delivered trace is exactly one event
per call, in call order, followed by the terminal event: no buffering,
batching or coalescing, and every call event strictly precedes the
terminal event. -/
theorem C3_calls_in_order_before_terminal {α : Type} (task : TaskProg α) :
    LoaderWorker.run_task task
      = task.calls.map (CtxCall.event α) ++ [terminalEvent task.outcome] :=
  LoaderWorker.run_task_trace task

/-- C4 counterexample: starting the same worker twice does not raise any
exception and spawns a second execution unit.  The result being
Except.ok shows the second start call returned normally, so no
MisuseError was raised; unitsSpawned being 2 shows a second QThread was
created and started. -/
theorem C4_counterexample :
    startedTwice
      = Except.ok { task := TaskProg.ret 0, thread := some 1, unitsSpawned := 2 } :=
  rfl

/-- C4 amended: calling start on a worker whose start has already been
called (its thread attribute is set) does not raise; the call returns
normally and spawns one additional execution unit, because the start
method contains no double-start guard. -/
theorem C4_second_start_no_guard {α : Type} (w : LoaderWorker.WorkerState α)
    (h : w.thread.isSome = true) :
    (LoaderWorker.start w).isOk = true
    ∧ Except.map (fun w2 => w2.unitsSpawned) (LoaderWorker.start w)
        = Except.ok (w.unitsSpawned + 1) :=
  ⟨rfl, rfl⟩

/-- Witness for the amended C4 at a worker already started once. -/
theorem C4_witness :
    startedOnceWorker.thread.isSome = true
    ∧ ((LoaderWorker.start startedOnceWorker).isOk = true
       ∧ Except.map (fun w2 => w2.unitsSpawned)
           (LoaderWorker.start startedOnceWorker) = Except.ok 2) :=
  ⟨rfl, C4_second_start_no_guard startedOnceWorker rfl⟩

/-- C5 counterexample: a task returns 42, so the delivered trace ends
with the terminal event finished 42; a retained worker context whose log
method is called afterwards still invokes the message sink, and a
LogMessage event is delivered after the terminal event.  This refutes
the claim that no further event of any kind is delivered after the
terminal event. -/
theorem C5_counterexample :
    (LoaderWorker.workerCtx Nat).log "late"
        (LoaderWorker.run_task (TaskProg.ret 42))
      = [Event.finished 42, Event.logMessage "late"] :=
  rfl

/-- C5 amended: LoaderContext keeps no terminal-state flag, so a context
retained by the task body after the terminal event still forwards every
log and set_progress call through its sinks, appending a further event
to the delivered trace regardless of its content; suppression of late
events is not performed by this code. -/
theorem C5_context_has_no_terminal_guard {α : Type} (s : List (Event α))
    (t : String) (v : Rat) :
    (LoaderWorker.workerCtx α).log t s = s ++ [Event.logMessage t]
    ∧ (LoaderWorker.workerCtx α).set_progress v s = s ++ [Event.progressUpdate v] :=
  ⟨rfl, rfl⟩

/-- C6: set_progress on a context constructed without a progress sink
leaves the observer state unchanged (a no-op; as a total function it
raises nothing); with a sink configured it forwards the value to the
sink unchanged, for every rational value including values outside the
unit interval; and log always invokes the message sink, which is a
required, non-optional constructor argument. -/
theorem C6_progress_optional_log_unconditional {σ : Type}
    (sm : String → σ → σ) (v : Rat) (s : σ) :
    (LoaderContext.mk sm none).set_progress v s = s
    ∧ (∀ f : Rat → σ → σ, (LoaderContext.mk sm (some f)).set_progress v s = f v s)
    ∧ (∀ sp : Option (Rat → σ → σ), ∀ t : String,
        (LoaderContext.mk sm sp).log t s = sm t s) :=
  ⟨rfl, fun _f => rfl, fun _sp _t => rfl⟩

/-- C8: for the concrete task of scenario B, which reports progress one
half and then raises ValueError with message bad input, the delivered
trace is exactly ProgressUpdate of one half followed by the Failed event
carrying that ValueError, and nothing else. -/
theorem C8_scenarioB_trace :
    LoaderWorker.run_task scenarioB
      = [Event.progressUpdate (1 / 2),
         Event.failed (PyError.valueError "bad input")] :=
  rfl

/-- C9: the context the worker builds for task execution always has a
progress sink wired (send_progress is some), so the no-op branch of
set_progress is unreachable for worker-created contexts, and every
set_progress call on such a context appends exactly one ProgressUpdate
event carrying the same value. -/
theorem C9_worker_wires_progress_sink {α : Type} (v : Rat)
    (s : List (Event α)) :
    (LoaderWorker.workerCtx α).send_progress.isSome = true
    ∧ (LoaderWorker.workerCtx α).set_progress v s = s ++ [Event.progressUpdate v] :=
  ⟨rfl, rfl⟩

/-- Dispatching a worker trace: each call event becomes the single
action of its dialog-bound handler, and the terminal event becomes the
actions of its terminal handler. -/
theorem flatMap_trace {α : Type} (hr he : Bool) (cs : List CtxCall)
    (o : Except PyError α) :
    ((cs.map (CtxCall.event α)) ++ [terminalEvent o]).flatMap
        (dispatchEvent hr he)
      = cs.map stepAction ++ terminalActions hr he o := by
  induction cs with
  | nil => cases o <;> simp [dispatchEvent, terminalEvent, terminalActions]
  | cons c cs ih => cases c <;> simp [dispatchEvent, CtxCall.event, stepAction, ih]

/-- Dialog-bound deliveries are never callback invocations. -/
theorem steps_countP_callback {α : Type} (cs : List CtxCall) :
    (cs.map (stepAction (α := α))).countP MainAction.isCallback = 0 := by
  induction cs with
  | nil => rfl
  | cons c cs ih =>
      cases c <;> simp [List.countP_cons, stepAction, MainAction.isCallback, ih]

/-- The terminal handler performs no dialog-bound delivery, and invokes
a caller callback exactly when the matching optional callback was
supplied. -/
theorem terminal_countP {α : Type} (hr he : Bool) (o : Except PyError α) :
    (terminalActions hr he o).countP MainAction.isDelivery = 0
    ∧ (terminalActions hr he o).countP MainAction.isCallback
        = (match o with
           | Except.ok _ => if hr then 1 else 0
           | Except.error _ => if he then 1 else 0) := by
  cases o <;> cases hr <;> cases he <;> exact ⟨rfl, rfl⟩

/-- C7: the main-thread action sequence of a run splits as the dialog
display and dialog-bound deliveries, followed by the actions of exactly
one terminal handler.  The prefix contains no callback invocation; the
terminal part contains no log or progress delivery, so every delivery
emitted before the terminal event is handled before any callback runs;
and the terminal part invokes exactly one callback when the matching
optional callback was supplied, and none otherwise, so onResult and
onError are mutually exclusive and each runs at most once per run
call. -/
theorem C7_terminal_callback_routing {α : Type} (hr he : Bool)
    (task : TaskProg α) :
    run_with_loader hr he task
      = (MainAction.showDialog :: task.calls.map stepAction)
          ++ terminalActions hr he task.outcome
    ∧ (MainAction.showDialog :: task.calls.map (stepAction (α := α))).countP
        MainAction.isCallback = 0
    ∧ (terminalActions (α := α) hr he task.outcome).countP
        MainAction.isDelivery = 0
    ∧ (terminalActions (α := α) hr he task.outcome).countP
        MainAction.isCallback
        = (match task.outcome with
           | Except.ok _ => if hr then 1 else 0
           | Except.error _ => if he then 1 else 0) := by
  refine ⟨?_, ?_, (terminal_countP hr he task.outcome).1,
    (terminal_countP hr he task.outcome).2⟩
  · unfold run_with_loader
    rw [LoaderWorker.run_task_trace, flatMap_trace]
    rfl
  · rw [List.countP_cons, steps_countP_callback]
    rfl

/-- C10: the two terminal handlers of run_with_loader perform the same
teardown sequence in the same order (identical after abstracting the
callback payload): first close the dialog, then invoke the caller
callback exactly when one was supplied, then release the worker.  The
dialog close is the first action and the worker release the last on both
the success and the failure path, so a supplied callback always runs
after the dialog has been closed. -/
theorem C10_handlers_same_teardown {α : Type} (hasCb : Bool) (r : α)
    (e : PyError) :
    (handleResult hasCb r).map MainAction.teardownShape
        = (handleError (α := α) hasCb e).map MainAction.teardownShape
    ∧ (handleResult hasCb r).head? = some MainAction.closeDialog
    ∧ (handleError (α := α) hasCb e).head? = some MainAction.closeDialog
    ∧ (handleResult hasCb r).getLast? = some MainAction.deleteWorker
    ∧ (handleError (α := α) hasCb e).getLast? = some MainAction.deleteWorker
    ∧ (MainAction.callOnResult r ∈ handleResult hasCb r ↔ hasCb = true)
    ∧ (MainAction.callOnError e ∈ handleError (α := α) hasCb e ↔ hasCb = true) := by
  cases hasCb
  · exact ⟨rfl, rfl, rfl, rfl, rfl, by simp [handleResult], by simp [handleError]⟩
  · exact ⟨rfl, rfl, rfl, rfl, rfl, by simp [handleResult], by simp [handleError]⟩

end Datalens
